import Mathlib

/-!
# Verification of the rally bot reminder engine (src/rally_bot.py)

A shallow embedding of the reminder-scheduling core of `rally_bot.py`:

* the tier catalog and due-reminder evaluation performed once per 60-second
  tick inside `check_events` (lines 161-301),
* the per-event state transition on the `reminders_sent` column,
* the per-tick iteration over all stored event rows, including the behaviour
  on an unparseable stored time (`datetime.fromisoformat` raising), and
* the single-vote reconciler `on_reaction_add` (lines 304-327).

Times are modelled as rational numbers of seconds (`float` arithmetic in the
source is plain `+`, `-`, `/ 2` and comparisons on values of this size, which
are exact); tier labels and fired-tier entries are strings, as in the source,
where `reminders_sent` is a JSON list of strings.
-/

/-- The fixed polling interval of the `tasks.loop(seconds=60)` driving
`check_events`. -/
def tickIntervalSeconds : ℚ := 60

/-- The candidate tier list built by `check_events` for one event at one tick
(lines 180-204): `remaining` is `total_seconds = event_time - now`.  If more
than one hour is left, the long catalog is used, with a `halfway` tier whose
lead is `total_seconds / 2` recomputed this tick (included when that lead
exceeds 60); otherwise the short catalog `30m`, `15m`.  A `start` candidate is
appended when `"start"` is not yet in `reminders_sent` and
`-60 <= total_seconds <= 0` (line 203). -/
def remindersToCheck (remaining : ℚ) (reminders_sent : List String) :
    List (String × ℚ) :=
  (if 3600 < remaining then
      (if 60 < remaining / 2 then [("halfway", remaining / 2)] else []) ++
      [("12h", 43200), ("6h", 21600), ("3h", 10800), ("1h", 3600),
       ("30m", 1800), ("10m", 600)]
    else
      [("30m", 1800), ("15m", 900)]) ++
  (if "start" ∉ reminders_sent ∧ -60 ≤ remaining ∧ remaining ≤ 0 then
      [("start", 0)]
    else [])

/-- The per-candidate due test of `check_events` (lines 207-214): the `start`
tier is due when `-60 <= total_seconds <= 0`; any other tier with lead
`seconds_before` is due when its label is not in `reminders_sent` and
`0 <= total_seconds - seconds_before < 60`. -/
def isDue (remaining : ℚ) (reminders_sent : List String)
    (p : String × ℚ) : Bool :=
  if p.1 = "start" then
    decide (-60 ≤ remaining ∧ remaining ≤ 0)
  else
    decide (p.1 ∉ reminders_sent ∧ 0 ≤ remaining - p.2 ∧ remaining - p.2 < 60)

/-- The `due_reminders` list accumulated by `check_events` (lines 206-214):
the labels of the candidate tiers passing the due test, in catalog order. -/
def dueReminders (remaining : ℚ) (reminders_sent : List String) :
    List String :=
  ((remindersToCheck remaining reminders_sent).filter
      (isDue remaining reminders_sent)).map Prod.fst

/-- The effect of one tick of `check_events` on one event with a parseable
time: returns the dispatched tier labels and the updated `reminders_sent`.
An event with `total_seconds < -60` is skipped (line 174); if the due list is
empty nothing happens; if the destination channel cannot be resolved
(line 217-219) the event is skipped for this tick; otherwise every due tier
is dispatched and `reminders_sent.extend(due_reminders)` is persisted
(lines 298-301). -/
def tickEvent (remaining : ℚ) (channelOk : Bool)
    (reminders_sent : List String) : List String × List String :=
  if remaining < -60 then ([], reminders_sent)
  else
    let due := dueReminders remaining reminders_sent
    if due = [] then ([], reminders_sent)
    else if channelOk then (due, reminders_sent ++ due)
    else ([], reminders_sent)

/-- Repeated ticks of `check_events` against a single event: each tick
supplies the remaining time observed at that tick and whether the channel
lookup succeeds; returns the dispatch list of every tick and the final
`reminders_sent`. -/
def runTicks (reminders_sent : List String) :
    List (ℚ × Bool) → List (List String) × List String
  | [] => ([], reminders_sent)
  | t :: ts =>
      let step := tickEvent t.1 t.2 reminders_sent
      let rest := runTicks step.2 ts
      (step.1 :: rest.1, rest.2)

example : dueReminders 1830 [] = ["30m"] := by
  norm_num [dueReminders, remindersToCheck, isDue, List.filter] <;> decide

example : dueReminders 1830 ["30m"] = [] := by
  norm_num [dueReminders, remindersToCheck, isDue, List.filter] <;> decide

example : dueReminders 0 [] = ["start"] := by
  norm_num [dueReminders, remindersToCheck, isDue, List.filter] <;> decide

example : dueReminders 43230 [] = ["12h"] := by
  norm_num [dueReminders, remindersToCheck, isDue, List.filter] <;> decide

example : dueReminders 3630 [] = ["1h"] := by
  norm_num [dueReminders, remindersToCheck, isDue, List.filter] <;> decide

example : dueReminders 3630 ["1h"] = [] := by
  norm_num [dueReminders, remindersToCheck, isDue, List.filter] <;> decide

/-! ## Basic facts about the candidate catalog and the due list -/

lemma mem_dueReminders_iff {r : ℚ} {f : List String} {l : String} :
    l ∈ dueReminders r f ↔
      ∃ L, (l, L) ∈ remindersToCheck r f ∧ isDue r f (l, L) = true := by
  unfold dueReminders
  rw [List.mem_map]
  constructor
  · rintro ⟨⟨l', L⟩, hp, rfl⟩
    rw [List.mem_filter] at hp
    exact ⟨L, hp.1, hp.2⟩
  · rintro ⟨L, hm, hd⟩
    exact ⟨(l, L), List.mem_filter.mpr ⟨hm, hd⟩, rfl⟩

lemma remindersToCheck_labels_nodup (r : ℚ) (f : List String) :
    ((remindersToCheck r f).map Prod.fst).Nodup := by
  unfold remindersToCheck
  split_ifs <;>
    simp only [List.map_append, List.map_cons, List.map_nil] <;> decide

lemma lead_unique {r : ℚ} {f : List String} {l : String} {L L' : ℚ}
    (h : (l, L) ∈ remindersToCheck r f)
    (h' : (l, L') ∈ remindersToCheck r f) : L = L' := by
  have h2 := List.inj_on_of_nodup_map (remindersToCheck_labels_nodup r f) h h' rfl
  exact congrArg Prod.snd h2

lemma start_mem_remindersToCheck {r : ℚ} {f : List String} {L : ℚ} :
    ("start", L) ∈ remindersToCheck r f ↔
      L = 0 ∧ "start" ∉ f ∧ -60 ≤ r ∧ r ≤ 0 := by
  constructor
  · intro h
    unfold remindersToCheck at h
    rw [List.mem_append] at h
    rcases h with h | h
    · exfalso
      split_ifs at h <;> simp [Prod.ext_iff] at h
    · split_ifs at h with hc
      · simp [Prod.ext_iff] at h
        exact ⟨h, hc⟩
      · simp at h
  · rintro ⟨hL, hcond⟩
    subst hL
    unfold remindersToCheck
    rw [List.mem_append, if_pos hcond]
    right
    simp

lemma halfway_mem_remindersToCheck {r : ℚ} {f : List String} {L : ℚ}
    (h : ("halfway", L) ∈ remindersToCheck r f) : 3600 < r ∧ L = r / 2 := by
  unfold remindersToCheck at h
  rw [List.mem_append] at h
  rcases h with h | h
  · split_ifs at h with h1 h2 <;> simp [Prod.ext_iff] at h
    exact ⟨h1, h⟩
  · split_ifs at h <;> simp [Prod.ext_iff] at h

lemma tenMin_mem_remindersToCheck {r : ℚ} {f : List String} {L : ℚ}
    (h : ("10m", L) ∈ remindersToCheck r f) : 3600 < r ∧ L = 600 := by
  unfold remindersToCheck at h
  rw [List.mem_append] at h
  rcases h with h | h
  · split_ifs at h with h1 h2 <;> simp [Prod.ext_iff] at h
    · exact ⟨h1, h⟩
    · exact ⟨h1, h⟩
  · split_ifs at h <;> simp [Prod.ext_iff] at h

lemma due_iff_of_mem_nonstart {r : ℚ} {f : List String} {l : String} {L : ℚ}
    (hm : (l, L) ∈ remindersToCheck r f) (hl : l ≠ "start") :
    l ∈ dueReminders r f ↔ (l ∉ f ∧ 0 ≤ r - L ∧ r - L < 60) := by
  rw [mem_dueReminders_iff]
  constructor
  · rintro ⟨L', hm', hd⟩
    obtain rfl : L' = L := lead_unique hm' hm
    unfold isDue at hd
    rw [if_neg hl] at hd
    exact of_decide_eq_true hd
  · intro hcond
    refine ⟨L, hm, ?_⟩
    unfold isDue
    rw [if_neg hl]
    exact decide_eq_true hcond

lemma start_mem_due_iff (r : ℚ) (f : List String) :
    "start" ∈ dueReminders r f ↔ ("start" ∉ f ∧ -60 ≤ r ∧ r ≤ 0) := by
  rw [mem_dueReminders_iff]
  constructor
  · rintro ⟨L, hm, _⟩
    exact (start_mem_remindersToCheck.mp hm).2
  · intro h
    refine ⟨0, start_mem_remindersToCheck.mpr ⟨rfl, h⟩, ?_⟩
    unfold isDue
    rw [if_pos rfl]
    exact decide_eq_true ⟨h.2.1, h.2.2⟩

lemma not_fired_of_mem_due {r : ℚ} {f : List String} {l : String}
    (h : l ∈ dueReminders r f) : l ∉ f := by
  by_cases hl : l = "start"
  · subst hl
    exact ((start_mem_due_iff r f).mp h).1
  · obtain ⟨L, _, hd⟩ := mem_dueReminders_iff.mp h
    unfold isDue at hd
    rw [if_neg hl] at hd
    exact (of_decide_eq_true hd).1

lemma dueReminders_nodup (r : ℚ) (f : List String) :
    (dueReminders r f).Nodup := by
  unfold dueReminders
  have hsub : List.Sublist
      (((remindersToCheck r f).filter (isDue r f)).map Prod.fst)
      ((remindersToCheck r f).map Prod.fst) :=
    (List.filter_sublist _).map _
  exact (remindersToCheck_labels_nodup r f).sublist hsub

/-! ## Facts about one tick's effect on one event -/

lemma mem_due_of_mem_tickEvent_fst {r : ℚ} {c : Bool} {f : List String}
    {l : String} (h : l ∈ (tickEvent r c f).1) : l ∈ dueReminders r f := by
  simp only [tickEvent] at h
  split_ifs at h <;> simp_all

lemma tickEvent_snd_eq (r : ℚ) (c : Bool) (f : List String) :
    (tickEvent r c f).2 = f ∨ (tickEvent r c f).2 = f ++ dueReminders r f := by
  simp only [tickEvent]
  split_ifs <;> simp

lemma tickEvent_snd_of_dispatch {r : ℚ} {c : Bool} {f : List String}
    (h : (tickEvent r c f).1 ≠ []) :
    (tickEvent r c f).2 = f ++ (tickEvent r c f).1 := by
  simp only [tickEvent] at h ⊢
  split_ifs at h ⊢ <;> simp_all

lemma mem_tickEvent_snd_of_mem {r : ℚ} {c : Bool} {f : List String}
    {l : String} (h : l ∈ f) : l ∈ (tickEvent r c f).2 := by
  rcases tickEvent_snd_eq r c f with h' | h' <;> rw [h'] <;> simp [h]

/-! ## Facts about tick sequences -/

lemma runTicks_start_not_dispatched :
    ∀ (ts : List (ℚ × Bool)) (f : List String), "start" ∈ f →
      ∀ d ∈ (runTicks f ts).1, "start" ∉ d
  | [], f, _, d, hd => by simp [runTicks] at hd
  | t :: ts, f, hf, d, hd => by
      simp only [runTicks, List.mem_cons] at hd
      rcases hd with rfl | hd
      · intro hstart
        exact not_fired_of_mem_due (mem_due_of_mem_tickEvent_fst hstart) hf
      · exact runTicks_start_not_dispatched ts (tickEvent t.1 t.2 f).2
          (mem_tickEvent_snd_of_mem hf) d hd

lemma runTicks_start_count :
    ∀ (ts : List (ℚ × Bool)) (f : List String),
      (runTicks f ts).1.countP (fun d => decide ("start" ∈ d)) ≤ 1
  | [], f => by simp [runTicks]
  | t :: ts, f => by
      simp only [runTicks, List.countP_cons]
      by_cases hs : "start" ∈ (tickEvent t.1 t.2 f).1
      · have hne : (tickEvent t.1 t.2 f).1 ≠ [] := by
          intro h0
          rw [h0] at hs
          simp at hs
        have hrec : "start" ∈ (tickEvent t.1 t.2 f).2 := by
          rw [tickEvent_snd_of_dispatch hne]
          simp [hs]
        have hzero : (runTicks (tickEvent t.1 t.2 f).2 ts).1.countP
            (fun d => decide ("start" ∈ d)) = 0 := by
          rw [List.countP_eq_zero]
          intro d hd
          simpa using runTicks_start_not_dispatched ts _ hrec d hd
        simp [hzero, hs]
      · have hfalse : (decide ("start" ∈ (tickEvent t.1 t.2 f).1)) = false :=
          decide_eq_false hs
        simp only [hfalse, if_false, add_zero]
        exact runTicks_start_count ts _

lemma runTicks_dispatch_somewhere_due {l : String} :
    ∀ (ts : List (ℚ × Bool)) (f : List String), ∀ d ∈ (runTicks f ts).1,
      l ∈ d → ∃ r f', l ∈ dueReminders r f'
  | [], f, d, hd => by simp [runTicks] at hd
  | t :: ts, f, d, hd => by
      simp only [runTicks, List.mem_cons] at hd
      rcases hd with rfl | hd
      · exact fun hl => ⟨t.1, f, mem_due_of_mem_tickEvent_fst hl⟩
      · exact runTicks_dispatch_somewhere_due ts _ d hd

/-! ## Claim theorems: due-window evaluation -/

/-- C1: a non-start candidate tier with lead `L` is due at a tick exactly when
its label is not yet in the event's fired-tier set and
`0 <= remaining - L < 60`, the half-open window whose width is the 60-second
tick interval (rally_bot.py lines 206-214). -/
theorem nonstart_due_iff_C1 (r : ℚ) (f : List String) (label : String) (L : ℚ)
    (hmem : (label, L) ∈ remindersToCheck r f) (hlabel : label ≠ "start") :
    label ∈ dueReminders r f ↔
      (label ∉ f ∧ 0 ≤ r - L ∧ r - L < tickIntervalSeconds) :=
  due_iff_of_mem_nonstart hmem hlabel

theorem nonstart_due_iff_C1_witness : "30m" ∈ dueReminders 1830 [] := by
  refine (nonstart_due_iff_C1 1830 [] "30m" 1800 ?_ (by decide)).mpr ?_
  · unfold remindersToCheck
    norm_num
  · refine ⟨by simp, by norm_num, by norm_num [tickIntervalSeconds]⟩

/-- C2: the start tier is due exactly when `remaining` lies in the closed
window `[-60, 0]` and `"start"` is not yet fired; across any sequence of
ticks the start notice is dispatched at most once, never while `remaining`
is outside `[-60, 0]`, and never again after it is recorded in the
fired-tier set (rally_bot.py lines 201-214, 298-301). -/
theorem start_fires_once_C2 :
    (∀ (r : ℚ) (f : List String),
        "start" ∈ dueReminders r f ↔ ("start" ∉ f ∧ -60 ≤ r ∧ r ≤ 0)) ∧
    (∀ (f : List String) (ts : List (ℚ × Bool)),
        (runTicks f ts).1.countP (fun d => decide ("start" ∈ d)) ≤ 1) ∧
    (∀ (f : List String) (ts : List (ℚ × Bool)), "start" ∈ f →
        ∀ d ∈ (runTicks f ts).1, "start" ∉ d) ∧
    (∀ (r : ℚ) (c : Bool) (f : List String),
        "start" ∈ (tickEvent r c f).1 → -60 ≤ r ∧ r ≤ 0) := by
  refine ⟨start_mem_due_iff, fun f ts => runTicks_start_count ts f,
    fun f ts hf => runTicks_start_not_dispatched ts f hf, ?_⟩
  intro r c f h
  exact ((start_mem_due_iff r f).mp (mem_due_of_mem_tickEvent_fst h)).2

theorem start_fires_once_C2_witness : "start" ∉ (["30m"] : List String) := by
  refine start_fires_once_C2.2.2.1 ["start"] [((1830 : ℚ), true)] (by simp)
    ["30m"] ?_
  have h : dueReminders 1830 ["start"] = ["30m"] := by
    norm_num [dueReminders, remindersToCheck, isDue, List.filter] <;> decide
  norm_num [runTicks, tickEvent, h]

lemma halfway_not_due (r : ℚ) (f : List String) :
    "halfway" ∉ dueReminders r f := by
  intro h
  obtain ⟨L, hm, hd⟩ := mem_dueReminders_iff.mp h
  obtain ⟨hr, rfl⟩ := halfway_mem_remindersToCheck hm
  unfold isDue at hd
  rw [if_neg (by decide : ("halfway" : String) ≠ "start")] at hd
  obtain ⟨-, -, hwin⟩ := of_decide_eq_true hd
  linarith

/-- C3: the spec expects the `halfway` tier of an event seen 7200 s out to
fire exactly once, when `remaining` has decayed into `[3600, 3660)`.  The
code cannot do this: the halfway lead is recomputed as `remaining / 2` every
tick (line 183), so whenever `halfway` is a candidate (`remaining > 3600`,
line 182) the window test `0 <= remaining - remaining/2 < 60` (line 213)
requires `remaining < 120` and always fails.  The `halfway` tier is never
due at any tick, and in particular fires zero times (not once) across the
ticks that walk `remaining` from 7200 down past the event start. -/
theorem halfway_never_fires_C3 :
    (∀ (r : ℚ) (f : List String),
        (dueReminders r f).countP (fun l => decide (l = "halfway")) = 0) ∧
    (runTicks []
        ((List.range 122).map fun k => (((7200 : ℚ) - 60 * k), true))).1.countP
      (fun d => decide ("halfway" ∈ d)) = 0 := by
  have hnot : ∀ (r : ℚ) (f : List String),
      (dueReminders r f).countP (fun l => decide (l = "halfway")) = 0 := by
    intro r f
    rw [List.countP_eq_zero]
    intro l hl
    simp only [decide_eq_true_eq]
    intro hcontra
    subst hcontra
    exact halfway_not_due r f hl
  refine ⟨hnot, ?_⟩
  rw [List.countP_eq_zero]
  intro d hd
  simp only [decide_eq_true_eq]
  intro hcontra
  obtain ⟨r, f', hdue⟩ := runTicks_dispatch_somewhere_due _ _ d hd hcontra
  exact halfway_not_due r f' hdue

/-- C4: the candidate tier catalog (rally_bot.py lines 182-204): with more
than one hour left it is exactly halfway (lead `remaining / 2`, whose guard
`remaining / 2 > 60` is automatic there), 12h, 6h, 3h, 1h, 30m, 10m in that
order; with at most one hour left it is exactly 30m, 15m, with the start
tier appended exactly when `remaining` is in `[-60, 0]` and `"start"` has
not yet fired. -/
theorem tier_catalog_C4 (r : ℚ) (f : List String) :
    (3600 < r → 60 < r / 2 ∧
      remindersToCheck r f =
        [("halfway", r / 2), ("12h", 43200), ("6h", 21600), ("3h", 10800),
         ("1h", 3600), ("30m", 1800), ("10m", 600)]) ∧
    (r ≤ 3600 → "start" ∉ f → -60 ≤ r → r ≤ 0 →
      remindersToCheck r f = [("30m", 1800), ("15m", 900), ("start", 0)]) ∧
    (r ≤ 3600 → ¬("start" ∉ f ∧ -60 ≤ r ∧ r ≤ 0) →
      remindersToCheck r f = [("30m", 1800), ("15m", 900)]) := by
  refine ⟨?_, ?_, ?_⟩
  · intro h1
    have h2 : 60 < r / 2 := by linarith
    have h3 : ¬("start" ∉ f ∧ -60 ≤ r ∧ r ≤ 0) := by
      rintro ⟨-, -, h⟩
      linarith
    refine ⟨h2, ?_⟩
    unfold remindersToCheck
    rw [if_pos h1, if_pos h2, if_neg h3]
    simp
  · intro h1 h2 h3 h4
    unfold remindersToCheck
    rw [if_neg (by linarith : ¬3600 < r), if_pos ⟨h2, h3, h4⟩]
    simp
  · intro h1 h2
    unfold remindersToCheck
    rw [if_neg (by linarith : ¬3600 < r), if_neg h2]
    simp

theorem tier_catalog_C4_witness :
    60 < (7200 : ℚ) / 2 ∧
      remindersToCheck 7200 [] =
        [("halfway", (7200 : ℚ) / 2), ("12h", 43200), ("6h", 21600),
         ("3h", 10800), ("1h", 3600), ("30m", 1800), ("10m", 600)] :=
  (tier_catalog_C4 7200 []).1 (by norm_num)

/-- C5: over one tick, the fired-tier collection behaves as a monotonically
growing set: if no label appears twice before the tick, no label appears
twice after it, and every label present before is still present after
(rally_bot.py lines 298-301, with the due filter at lines 206-214). -/
theorem fired_tiers_set_C5 (r : ℚ) (c : Bool) (f : List String)
    (hf : f.Nodup) :
    (tickEvent r c f).2.Nodup ∧ ∀ l ∈ f, l ∈ (tickEvent r c f).2 := by
  constructor
  · rcases tickEvent_snd_eq r c f with h | h <;> rw [h]
    · exact hf
    · rw [List.nodup_append]
      exact ⟨hf, dueReminders_nodup r f,
        fun a ha hb => not_fired_of_mem_due hb ha⟩
  · exact fun l hl => mem_tickEvent_snd_of_mem hl

theorem fired_tiers_set_C5_witness : "1h" ∈ (tickEvent 1830 true ["1h"]).2 :=
  (fired_tiers_set_C5 1830 true ["1h"] (by simp)).2 "1h" (by simp)

lemma tenMin_not_due (r : ℚ) (f : List String) :
    "10m" ∉ dueReminders r f := by
  intro h
  obtain ⟨L, hm, hd⟩ := mem_dueReminders_iff.mp h
  obtain ⟨hr, rfl⟩ := tenMin_mem_remindersToCheck hm
  unfold isDue at hd
  rw [if_neg (by decide : ("10m" : String) ≠ "start")] at hd
  obtain ⟨-, -, hwin⟩ := of_decide_eq_true hd
  have hwin' : r - 600 < 60 := hwin
  linarith

/-- C10: the `10m` tier can never fire: it is a candidate only when
`remaining > 3600` (rally_bot.py line 182-193) while its due window demands
`600 <= remaining < 660` (line 213), so it is never due, never dispatched,
and never added to the fired-tier set. -/
theorem tenMin_never_fires_C10 (r : ℚ) (c : Bool) (f : List String) :
    (dueReminders r f).countP (fun l => decide (l = "10m")) = 0 ∧
    (tickEvent r c f).1.countP (fun l => decide (l = "10m")) = 0 ∧
    decide ("10m" ∈ (tickEvent r c f).2) = decide ("10m" ∈ f) := by
  refine ⟨?_, ?_, ?_⟩
  · rw [List.countP_eq_zero]
    intro l hl
    simp only [decide_eq_true_eq]
    intro hcontra
    subst hcontra
    exact tenMin_not_due r f hl
  · rw [List.countP_eq_zero]
    intro l hl
    simp only [decide_eq_true_eq]
    intro hcontra
    subst hcontra
    exact tenMin_not_due r f (mem_due_of_mem_tickEvent_fst hl)
  · rw [decide_eq_decide]
    rcases tickEvent_snd_eq r c f with h | h <;> rw [h]
    rw [List.mem_append]
    constructor
    · rintro (h' | h')
      · exact h'
      · exact absurd h' (tenMin_not_due r f)
    · exact Or.inl

/-! ## The stored rows, the tick loop, and its outbound actions -/

/-- An outbound chat-platform call made by `check_events`: the loop only ever
posts reminder messages (`channel.send`, rally_bot.py lines 223-296).  The
`deleteMessage` constructor is the `Notifier.deleteMessage` operation of the
spec's interface; it is part of the action alphabet so that its absence from
every trace is a statable property. -/
inductive BotAction where
  | post (channelId : Nat) (tier : String)
  | deleteMessage (channelId : Nat) (messageRef : Nat)
deriving DecidableEq

/-- Recognizer for deletion requests in an action trace. -/
def BotAction.isDelete : BotAction → Bool
  | BotAction.deleteMessage _ _ => true
  | BotAction.post _ _ => false

/-- One row of the `events` table (schema at rally_bot.py lines 32-42).
`event_time` holds the outcome of `datetime.fromisoformat` on the stored
ISO-8601 text (line 170): `some t` (an instant in seconds) when the text
parses, `none` when parsing raises.  `reminders_sent` is the decoded JSON
list of fired tier labels (line 178). -/
structure StoredRow where
  id : Nat
  event_type : String
  event_name : String
  event_time : Option ℚ
  channel_id : Nat
  message_id : Option Nat
  reminders_sent : List String
deriving DecidableEq

/-- Processing of a single row inside one tick of `check_events`
(rally_bot.py lines 169-301).  There is no try/except around the time parse,
so an unparseable stored time raises, modelled as `Except.error`; otherwise
`tickEvent` evaluates the tiers at `remaining = event_time - now`, each
dispatched tier is one `channel.send` (an `BotAction.post`), and the updated
`reminders_sent` is written back to the row. -/
def checkEventRow (now : ℚ) (channelOk : Bool) (row : StoredRow) :
    Except Unit (List BotAction × StoredRow) :=
  match row.event_time with
  | none => Except.error ()
  | some t =>
      let step := tickEvent (t - now) channelOk row.reminders_sent
      Except.ok (step.1.map (BotAction.post row.channel_id),
        { row with reminders_sent := step.2 })

/-- The outcome of one whole tick of `check_events` over the stored rows:
either every row was processed, or an exception escaped partway through the
loop, in which case only the actions taken and rows updated before the crash
exist and every later row went unevaluated. -/
inductive TickResult where
  | ok (actions : List BotAction) (rows : List StoredRow)
  | crashed (actions : List BotAction) (rows : List StoredRow)
deriving DecidableEq

/-- One tick of `check_events` over all stored rows (the loop at rally_bot.py
line 169): rows are processed in order and a raised exception aborts the
whole loop on the spot. -/
def checkEventsTick (now : ℚ) (channelOk : Nat → Bool) :
    List StoredRow → TickResult
  | [] => TickResult.ok [] []
  | row :: rows =>
      match checkEventRow now (channelOk row.channel_id) row with
      | Except.error _ => TickResult.crashed [] []
      | Except.ok (acts, row') =>
          match checkEventsTick now channelOk rows with
          | TickResult.ok acts' rows' =>
              TickResult.ok (acts ++ acts') (row' :: rows')
          | TickResult.crashed acts' rows' =>
              TickResult.crashed (acts ++ acts') (row' :: rows')

/-- The tick loop run repeatedly against one stored row, each entry of `nows`
being the wall clock of one tick: all outbound actions in order, and the
final row.  A raised exception stops the loop (discord.py cancels a
`tasks.loop` whose body raises), so nothing further happens. -/
def runRowTicks (channelOk : Bool) (row : StoredRow) :
    List ℚ → List BotAction × StoredRow
  | [] => ([], row)
  | now :: nows =>
      match checkEventRow now channelOk row with
      | Except.error _ => ([], row)
      | Except.ok (acts, row') =>
          let rest := runRowTicks channelOk row' nows
          (acts ++ rest.1, rest.2)

/-- C7: at any tick, an event whose remaining time is strictly below -60
seconds is skipped before anything else happens (rally_bot.py lines
174-176): no outbound action, and the row — every field of it — is returned
unchanged. -/
theorem stale_event_untouched_C7 (now : ℚ) (c : Bool) (row : StoredRow)
    (t : ℚ) (ht : row.event_time = some t) (hstale : t - now < -60) :
    checkEventRow now c row = Except.ok ([], row) := by
  obtain ⟨i, ety, enm, et, ch, mid, rs⟩ := row
  obtain rfl : et = some t := ht
  unfold checkEventRow
  simp [tickEvent, hstale]

def staleRow : StoredRow :=
  ⟨1, "hydra", "Zone 3 Push", some 100, 42, none, ["start"]⟩

theorem stale_event_untouched_C7_witness :
    checkEventRow 300 true staleRow = Except.ok ([], staleRow) :=
  stale_event_untouched_C7 300 true staleRow 100 rfl (by norm_num)

/-- C8 (amended): `check_events` wraps no try/except around the stored-time
parse (rally_bot.py line 170), so one event with an unparseable time does
not get skipped with a diagnostic — the exception aborts the tick loop
itself and every event after the malformed one goes unevaluated that tick. -/
theorem malformed_aborts_tick_C8 (now : ℚ) (ch : Nat → Bool)
    (row : StoredRow) (rows : List StoredRow) (h : row.event_time = none) :
    checkEventsTick now ch (row :: rows) = TickResult.crashed [] [] := by
  unfold checkEventsTick checkEventRow
  rw [h]

def malformedRow : StoredRow := ⟨1, "hydra", "Alpha", none, 42, none, []⟩

def healthyRow : StoredRow := ⟨2, "hydra", "Beta", some 1830, 42, none, []⟩

theorem malformed_aborts_tick_C8_witness :
    checkEventsTick 0 (fun _ => true) [malformedRow] =
      TickResult.crashed [] [] :=
  malformed_aborts_tick_C8 0 (fun _ => true) malformedRow [] rfl

/-- C8 counterexample: a tick over a malformed row followed by a healthy row
due for its `30m` reminder crashes with nothing dispatched and nothing
updated — the healthy row is not evaluated — although the healthy row alone
would have dispatched `30m`.  This refutes the claim that a tick skips a
malformed event and still evaluates every other event. -/
theorem malformed_aborts_tick_C8_cex :
    checkEventsTick 0 (fun _ => true) [malformedRow, healthyRow] =
      TickResult.crashed [] [] ∧
    checkEventsTick 0 (fun _ => true) [healthyRow] =
      TickResult.ok [BotAction.post 42 "30m"]
        [{ healthyRow with reminders_sent := ["30m"] }] := by
  constructor
  · rfl
  · have hsub : (1830 : ℚ) - 0 = 1830 := by norm_num
    have hdue : dueReminders 1830 [] = ["30m"] := by
      norm_num [dueReminders, remindersToCheck, isDue, List.filter] <;> decide
    have hstep : tickEvent 1830 true [] = (["30m"], ["30m"]) := by
      norm_num [tickEvent, hdue]
    simp [checkEventsTick, checkEventRow, healthyRow, hsub, hstep]

lemma checkEventRow_ok_shape {now : ℚ} {c : Bool} {row : StoredRow}
    {acts : List BotAction} {row' : StoredRow}
    (h : checkEventRow now c row = Except.ok (acts, row')) :
    row' = { row with
        reminders_sent := row'.reminders_sent } ∧
      ∀ a ∈ acts, ∃ tier, a = BotAction.post row.channel_id tier := by
  unfold checkEventRow at h
  cases ht : row.event_time with
  | none =>
      rw [ht] at h
      cases h
  | some t =>
      rw [ht] at h
      rw [Except.ok.injEq, Prod.mk.injEq] at h
      obtain ⟨hacts, hrow⟩ := h
      constructor
      · rw [← hrow]
      · intro a ha
        rw [← hacts] at ha
        obtain ⟨tier, -, rfl⟩ := List.mem_map.mp ha
        exact ⟨tier, rfl⟩

/-- C9 (amended): `check_events` never requests the deletion of a prior
reminder message and records no reminder-message reference: across any run
of ticks, the action trace contains posts only — zero deletion requests —
and the row changes in its `reminders_sent` column alone (in particular
`message_id` still holds the original announcement reference, not that of
any reminder). -/
theorem dispatcher_no_delete_C9 (c : Bool) (row : StoredRow)
    (nows : List ℚ) :
    (runRowTicks c row nows).1.countP BotAction.isDelete = 0 ∧
    (runRowTicks c row nows).2.id = row.id ∧
    (runRowTicks c row nows).2.event_type = row.event_type ∧
    (runRowTicks c row nows).2.event_name = row.event_name ∧
    (runRowTicks c row nows).2.event_time = row.event_time ∧
    (runRowTicks c row nows).2.channel_id = row.channel_id ∧
    (runRowTicks c row nows).2.message_id = row.message_id := by
  induction nows generalizing row with
  | nil => simp [runRowTicks]
  | cons now nows ih =>
      unfold runRowTicks
      cases hstep : checkEventRow now c row with
      | error e => simp
      | ok p =>
          obtain ⟨acts, row'⟩ := p
          obtain ⟨hrow, hacts⟩ := checkEventRow_ok_shape hstep
          have hcount : acts.countP BotAction.isDelete = 0 := by
            rw [List.countP_eq_zero]
            intro a ha
            obtain ⟨tier, rfl⟩ := hacts a ha
            simp [BotAction.isDelete]
          have hfields := ih row'
          simp only [List.countP_append, hcount, Nat.zero_add]
          refine ⟨hfields.1, ?_⟩
          rw [hrow] at hfields ⊢
          simpa using hfields.2

def reminderRow : StoredRow :=
  ⟨3, "caravan", "Supply Run", some 50000, 42, some 777, []⟩

/-- C9 counterexample: an event at instant 50000 observed at ticks 6770 and
28370 fires its `12h` and then its `6h` reminder.  When the second reminder
fires, the trace shows it is posted with no deletion request anywhere
(`countP BotAction.isDelete = 0`), and the final row records no reminder
message reference — only `reminders_sent` changed, `message_id` still holds
the original announcement id 777.  This refutes the claim that the second
reminder is preceded by a deletion of the prior reminder message and that
the new message's reference is recorded. -/
theorem dispatcher_no_delete_C9_cex :
    (runRowTicks true reminderRow [6770, 28370]).1 =
      [BotAction.post 42 "12h", BotAction.post 42 "6h"] ∧
    (runRowTicks true reminderRow [6770, 28370]).1.countP
      BotAction.isDelete = 0 ∧
    (runRowTicks true reminderRow [6770, 28370]).2 =
      { reminderRow with reminders_sent := ["12h", "6h"] } := by
  have e1 : (50000 : ℚ) - 6770 = 43230 := by norm_num
  have e2 : (50000 : ℚ) - 28370 = 21630 := by norm_num
  have hd1 : dueReminders 43230 [] = ["12h"] := by
    norm_num [dueReminders, remindersToCheck, isDue, List.filter] <;> decide
  have hd2 : dueReminders 21630 ["12h"] = ["6h"] := by
    norm_num [dueReminders, remindersToCheck, isDue, List.filter] <;> decide
  have hs1 : tickEvent 43230 true [] = (["12h"], ["12h"]) := by
    norm_num [tickEvent, hd1]
  have hs2 : tickEvent 21630 true ["12h"] = (["6h"], ["12h", "6h"]) := by
    norm_num [tickEvent, hd2]
  have htrace : runRowTicks true reminderRow [6770, 28370] =
      ([BotAction.post 42 "12h", BotAction.post 42 "6h"],
        { reminderRow with reminders_sent := ["12h", "6h"] }) := by
    simp [runRowTicks, checkEventRow, reminderRow, e1, e2, hs1, hs2]
  rw [htrace]
  refine ⟨rfl, ?_, rfl⟩
  decide

/-! ## The single-vote reconciler -/

/-- The reaction emojis recognized as votes (rally_bot.py line 314). -/
def vote_emojis : List String := ["✅", "❌", "❓"]

/-- One emoji's reaction entry on a message: the emoji and the ids of the
users currently reacted with it (a discord.py `Reaction` together with the
users enumerated by `react.users()`, lines 320-322). -/
structure VoteReaction where
  emoji : String
  users : List Nat
deriving DecidableEq

/-- A message carrying vote reactions in some channel. -/
structure VoteMessage where
  channel_id : Nat
  reactions : List VoteReaction
deriving DecidableEq

/-- The `on_reaction_add` handler (rally_bot.py lines 304-327), evaluated on
the message state after the platform has recorded the triggering reaction:
bot users are ignored (line 306), messages outside the events channel are
ignored (line 310), unrecognized emojis are ignored (line 315); otherwise,
for every reaction whose emoji differs from the trigger and is a recognized
vote emoji, the triggering user is removed from its reactors
(`message.remove_reaction`, line 325).  The removals are best-effort in the
source (Forbidden/HTTPException swallowed, lines 326-327); they are modelled
as succeeding. -/
def on_reaction_add (events_channel_id : Nat) (isBot : Bool)
    (msg : VoteMessage) (emoji : String) (userId : Nat) : VoteMessage :=
  if isBot then msg
  else if msg.channel_id ≠ events_channel_id then msg
  else if emoji ∉ vote_emojis then msg
  else
    { msg with
      reactions := msg.reactions.map fun react =>
        if react.emoji ≠ emoji ∧ react.emoji ∈ vote_emojis then
          { react with users := react.users.filter (fun u => u ≠ userId) }
        else react }

/-- C6: after the reconciler processes a valid trigger (a non-bot user
adding a recognized vote emoji in the events channel), the triggering user
is absent from every other recognized vote emoji's reactors — so they hold
at most the emoji just added, whatever the order of their earlier additions
was (the result holds for every prior message state).  Reactions keep their
emojis, reactions with unrecognized emojis are untouched, the triggering
emoji's own reaction is untouched, and other users' memberships are
untouched everywhere. -/
theorem vote_reconciler_C6 (events_channel_id : Nat) (msg : VoteMessage)
    (emoji : String) (userId : Nat)
    (hch : msg.channel_id = events_channel_id)
    (hvote : emoji ∈ vote_emojis) :
    (∀ react ∈ (on_reaction_add events_channel_id false msg
          emoji userId).reactions,
        react.emoji ∈ vote_emojis → react.emoji ≠ emoji →
          userId ∉ react.users) ∧
    (on_reaction_add events_channel_id false msg emoji userId).channel_id
        = msg.channel_id ∧
    List.Forall₂ (fun react react' : VoteReaction =>
        react'.emoji = react.emoji ∧
        (react.emoji ∉ vote_emojis → react' = react) ∧
        (react.emoji = emoji → react' = react) ∧
        ∀ v : Nat, v ≠ userId → (v ∈ react'.users ↔ v ∈ react.users))
      msg.reactions
      (on_reaction_add events_channel_id false msg emoji userId).reactions
    := by
  have hmain : on_reaction_add events_channel_id false msg emoji userId =
      { msg with
        reactions := msg.reactions.map fun react =>
          if react.emoji ≠ emoji ∧ react.emoji ∈ vote_emojis then
            { react with users := react.users.filter (fun u => u ≠ userId) }
          else react } := by
    unfold on_reaction_add
    rw [if_neg (by simp : ¬(false = true)), if_neg (by simp [hch]),
      if_neg (not_not_intro hvote)]
  rw [hmain]
  refine ⟨?_, rfl, ?_⟩
  · intro react hmem hv hne
    obtain ⟨r0, hr0, rfl⟩ := List.mem_map.mp hmem
    by_cases hcond : r0.emoji ≠ emoji ∧ r0.emoji ∈ vote_emojis
    · rw [if_pos hcond]
      simp
    · rw [if_neg hcond] at hv hne ⊢
      exact absurd ⟨hne, hv⟩ hcond
  · rw [List.forall₂_map_right_iff, List.forall₂_same]
    intro react hmem
    by_cases hcond : react.emoji ≠ emoji ∧ react.emoji ∈ vote_emojis
    · rw [if_pos hcond]
      refine ⟨rfl, ?_, ?_, ?_⟩
      · intro hnv
        exact absurd hcond.2 hnv
      · intro he
        exact absurd he hcond.1
      · intro v hv
        simp [List.mem_filter, hv]
    · rw [if_neg hcond]
      exact ⟨rfl, fun _ => rfl, fun _ => rfl, fun v _ => Iff.rfl⟩

theorem vote_reconciler_C6_witness :
    (7 : Nat) ∉ (VoteReaction.mk "❌" [5]).users := by
  have h := vote_reconciler_C6 1
    (VoteMessage.mk 1 [VoteReaction.mk "✅" [7], VoteReaction.mk "❌" [7, 5]])
    "✅" 7 rfl (by decide)
  exact h.1 (VoteReaction.mk "❌" [5]) (by decide) (by decide) (by decide)
